import Mathlib

/-!
Shallow embedding of `src/firewall_manager.py` (botsarefuture/hetzner-firewall).

A firewall rule is a Hetzner API rule object; the script only ever looks at
the `source_ips` key (via `rule.get('source_ips', [])`, so a missing key is
read as the empty list) and constructs new rules with exactly the four keys
`direction`, `source_ips`, `port`, `protocol`.  We model a rule as a record
with those four optional fields (a `none` field models an absent dict key).

Strings stay Lean `String`s; Python `x in list` on strings is list
membership under string equality.
-/

structure Rule where
  direction : Option String := none
  source_ips : Option (List String) := none
  port : Option String := none
  protocol : Option String := none
deriving DecidableEq, Repr

/-- Python `rule.get('source_ips', [])`: the `source_ips` list of a rule,
with a missing key read as the empty list. -/
def Rule.getSourceIps (r : Rule) : List String :=
  r.source_ips.getD []

/-- Embedding of `remove_ip_rule(rules, ip_to_remove)`
(src/firewall_manager.py lines 183-196):
`[rule for rule in rules if ip_to_remove not in rule.get('source_ips', [])]`. -/
def remove_ip_rule (rules : List Rule) (ip_to_remove : String) : List Rule :=
  rules.filter (fun rule => !(rule.getSourceIps.contains ip_to_remove))

/-- Embedding of the `new_rule` dict built in `main`
(src/firewall_manager.py lines 231-236), with `cidr_ip` already in
CIDR notation. -/
def new_rule (cidr_ip : String) : Rule :=
  { direction := some "in"
    source_ips := some [cidr_ip]
    port := some "any"
    protocol := some "tcp" }

/-- Embedding of the pure reconciliation slice of `main`
(src/firewall_manager.py lines 223-237): starting from the fetched rules,
`last_ip_address` (`None` when no state file exists) and `my_ip_address`,
it removes the old rule when `last_ip_address and last_ip_address !=
my_ip_address` (Python truthiness: the empty string is falsy) and then
appends the new rule for `my_ip_address/32`. -/
def reconcile (rules : List Rule) (last_ip_address : Option String)
    (my_ip_address : String) : List Rule :=
  let rules1 :=
    match last_ip_address with
    | none => rules
    | some l =>
        if l ≠ "" ∧ l ≠ my_ip_address then
          remove_ip_rule rules (l ++ "/32")
        else
          rules
  rules1 ++ [new_rule (my_ip_address ++ "/32")]

/-- Model of Python `str.strip()` with no argument: drop leading and
trailing whitespace characters. -/
def pyStrip (s : String) : String :=
  ⟨((s.data.dropWhile Char.isWhitespace).reverse.dropWhile
      Char.isWhitespace).reverse⟩

/-- Embedding of `get_last_ip()` (src/firewall_manager.py lines 157-170):
the state file is modelled by its contents (`none` when `last_ip.txt` does
not exist); when present the stripped contents are returned. -/
def get_last_ip (file : Option String) : Option String :=
  match file with
  | none => none
  | some contents => some (pyStrip contents)

/-- Predicate for the tracked rule shape: `source_ips` equal to the given
singleton CIDR list, with `direction="in"`, `protocol="tcp"`, `port="any"`
(the triple of the rule `main` constructs). -/
def matchesTracked (cidr : String) (r : Rule) : Bool :=
  r.direction == some "in" && r.protocol == some "tcp" &&
    r.port == some "any" && r.source_ips == some [cidr]

example : remove_ip_rule [new_rule "1.2.3.4/32"] "1.2.3.4/32" = [] := by decide

example :
    reconcile [new_rule "1.2.3.4/32"] (some "1.2.3.4") "5.6.7.8" =
      [new_rule "5.6.7.8/32"] := by decide

/-!
Orchestrator model.  `main` (src/firewall_manager.py lines 198-253) is
sequential: config check, resolve IP (`get_my_ipv4`, which calls
`exit(1)` on failure), fetch rules (`get_current_firewall_rules`, also
`exit(1)` on failure), read the state file, reconcile, POST the new rule
set (`update_firewall_rules`, returning a `Bool`), and on success write
the state file and send the success e-mail; on failure it logs and calls
`restore_firewall_rules(firewall_id, headers)` — a name that is defined
nowhere in the repository, so the call raises `NameError` and the run
crashes with no further side effect.

`World` fixes the outcome of each external interaction for one run;
`runMain` returns the terminal outcome and the ordered list of mutating
side effects (the POST to `set_rules`, the state-file write, and the
success e-mail; reads are not mutations and are not traced).
-/

structure World where
  apiToken : Option String
  firewallId : Option String
  resolveResult : Option String
  fetchResult : Option (List Rule)
  lastFile : Option String
  applyOk : Bool
deriving DecidableEq, Repr

inductive Effect where
  | applyRules (rules : List Rule)
  | writeLast (ip : String)
  | emailSuccess
deriving DecidableEq, Repr

inductive Outcome where
  | exitConfig
  | exitResolve
  | exitFetch
  | success
  | crashNameError
deriving DecidableEq, Repr

/-- Python truthiness of an optional string (`os.getenv` result or a read
IP): `None` and the empty string are falsy. -/
def truthyStr : Option String → Bool
  | none => false
  | some s => s ≠ ""

/-- Embedding of `main()` (src/firewall_manager.py lines 198-253) over a
fixed `World`, returning the terminal outcome and the trace of mutating
side effects in program order. -/
def runMain (w : World) : Outcome × List Effect :=
  if !truthyStr w.apiToken || !truthyStr w.firewallId then
    (Outcome.exitConfig, [])
  else
    match w.resolveResult with
    | none => (Outcome.exitResolve, [])
    | some my_ip_address =>
      match w.fetchResult with
      | none => (Outcome.exitFetch, [])
      | some current_rules =>
        let last_ip_address := get_last_ip w.lastFile
        let final_rules := reconcile current_rules last_ip_address my_ip_address
        if w.applyOk then
          (Outcome.success,
            [Effect.applyRules final_rules,
             Effect.writeLast my_ip_address,
             Effect.emailSuccess])
        else
          (Outcome.crashNameError, [Effect.applyRules final_rules])

/-- Worlds used by witnesses: a fully successful run. -/
def wOk : World :=
  { apiToken := some "tok", firewallId := some "42"
    resolveResult := some "5.6.7.8"
    fetchResult := some [new_rule "1.2.3.4/32"]
    lastFile := some "1.2.3.4"
    applyOk := true }

/-- Worlds used by witnesses: a run whose `set_rules` POST fails. -/
def wFail : World :=
  { wOk with applyOk := false }

example : (runMain wOk).1 = Outcome.success := by decide
example : (runMain wFail).2 = [Effect.applyRules [new_rule "5.6.7.8/32"]] := by decide

/-- Concrete rule allowing the stale IP alongside another address, on an
unrelated port; used in counterexamples. -/
def ruleMulti : Rule :=
  { direction := some "in"
    source_ips := some ["1.2.3.4/32", "9.9.9.9/32"]
    port := some "80"
    protocol := some "tcp" }

/-- Concrete rule with a broader CIDR that numerically covers `1.2.3.4`
but is not the exact string `1.2.3.4/32`. -/
def ruleBroad : Rule :=
  { direction := some "in"
    source_ips := some ["1.2.3.0/24"]
    port := some "any"
    protocol := some "tcp" }

/-!  General lemmas about the embedded operations. -/

theorem string_append_right_cancel (a b s : String) (h : a ++ s = b ++ s) :
    a = b := by
  cases a with | _ da => cases b with | _ db => cases s with | _ ds =>
  simp only [String.ext_iff] at h ⊢
  simpa using List.append_cancel_right h

theorem cidr_ne_of_ne {a b : String} (h : a ≠ b) :
    a ++ "/32" ≠ b ++ "/32" :=
  fun hc => h (string_append_right_cancel a b "/32" hc)

theorem mem_remove_ip_rule {r : Rule} {rules : List Rule} {ip : String} :
    r ∈ remove_ip_rule rules ip ↔ r ∈ rules ∧ ip ∉ r.getSourceIps := by
  simp [remove_ip_rule]

theorem remove_ip_rule_append (A B : List Rule) (ip : String) :
    remove_ip_rule (A ++ B) ip =
      remove_ip_rule A ip ++ remove_ip_rule B ip := by
  simp [remove_ip_rule]

theorem remove_keeps_new_rule {l X : String} (h : l ≠ X) :
    remove_ip_rule [new_rule (X ++ "/32")] (l ++ "/32") =
      [new_rule (X ++ "/32")] := by
  simp [remove_ip_rule, new_rule, Rule.getSourceIps]
  exact fun hc => (cidr_ne_of_ne h hc).elim

theorem reconcile_some_ne (rules : List Rule) {l X : String}
    (h1 : l ≠ "") (h2 : l ≠ X) :
    reconcile rules (some l) X =
      remove_ip_rule rules (l ++ "/32") ++ [new_rule (X ++ "/32")] := by
  simp [reconcile, h1, h2]

/-!  Claim theorems. -/

/-- C5: reconciling with no prior IP and current IP `X` yields the
original rules unchanged plus exactly one appended rule whose
`source_ips` equals `[X/32]`; no rule is removed. -/
theorem c5_no_prior_ip_appends_only (rules : List Rule) (X : String) :
    reconcile rules none X = rules ++ [new_rule (X ++ "/32")] := rfl

/-- C9: reading the last tracked IP when no state file exists returns
`none` rather than an error; when the file exists it returns its
stripped contents. -/
theorem c9_state_read (s : String) :
    get_last_ip none = none ∧ get_last_ip (some s) = some (pyStrip s) :=
  ⟨rfl, rfl⟩

/-- C10: the removal step keeps exactly the rules whose `source_ips`
list does not contain the exact string `lastIP/32` as an element; a rule
with no `source_ips` key is always kept, and a rule with a broader
covering CIDR such as `1.2.3.0/24` is never removed. -/
theorem c10_removal_exact_string_match (rules : List Rule) (ip : String) :
    (∀ r : Rule, r ∈ remove_ip_rule rules ip ↔
        r ∈ rules ∧ ip ∉ r.getSourceIps) ∧
    (∀ r : Rule, r ∈ rules → r.source_ips = none →
        r ∈ remove_ip_rule rules ip) ∧
    remove_ip_rule [ruleBroad] "1.2.3.4/32" = [ruleBroad] := by
  refine ⟨fun r => mem_remove_ip_rule, fun r hr hnone => ?_, by decide⟩
  exact mem_remove_ip_rule.mpr ⟨hr, by simp [Rule.getSourceIps, hnone]⟩

/-- Witness for C10 at a concrete input: the broader-CIDR rule is a
member of the removal result. -/
theorem c10_removal_exact_string_match_witness :
    ruleBroad ∈ remove_ip_rule [ruleBroad, new_rule "1.2.3.4/32"] "1.2.3.4/32" :=
  ((c10_removal_exact_string_match [ruleBroad, new_rule "1.2.3.4/32"]
      "1.2.3.4/32").1 ruleBroad).mpr ⟨by decide, by decide⟩

/-- C4: when the prior IP is present (nonempty) and differs from the
current IP, reconciliation drops every rule whose `source_ips` contains
`lastIP/32`, regardless of the rule's direction, port, protocol or other
addresses: no rule of the result contains `lastIP/32`. -/
theorem c4_removal_drops_every_match (rules : List Rule) (l my : String)
    (r : Rule) (h1 : l ≠ "") (h2 : l ≠ my)
    (hr : r ∈ reconcile rules (some l) my) :
    (l ++ "/32") ∉ r.getSourceIps := by
  rw [reconcile_some_ne rules h1 h2] at hr
  rcases List.mem_append.mp hr with hmem | hmem
  · exact (mem_remove_ip_rule.mp hmem).2
  · have hrr := List.mem_singleton.mp hmem
    subst hrr
    simp [new_rule, Rule.getSourceIps]
    exact cidr_ne_of_ne h2

/-- Witness for C4 at a concrete input: with prior IP `1.2.3.4` and
current IP `5.6.7.8`, the rule surviving reconciliation of `[ruleMulti]`
does not contain `1.2.3.4/32`. -/
theorem c4_removal_drops_every_match_witness :
    ("1.2.3.4" : String) ≠ "" ∧ ("1.2.3.4" : String) ≠ "5.6.7.8" ∧
      new_rule "5.6.7.8/32" ∈ reconcile [ruleMulti] (some "1.2.3.4") "5.6.7.8" ∧
      ("1.2.3.4" ++ "/32") ∉ (new_rule "5.6.7.8/32").getSourceIps :=
  ⟨by decide, by decide, by decide,
    c4_removal_drops_every_match [ruleMulti] "1.2.3.4" "5.6.7.8"
      (new_rule "5.6.7.8/32") (by decide) (by decide) (by decide)⟩

/-- C6: reconciliation is not idempotent: running the reconcile step
twice with the same current IP and the same (un-updated) last IP
produces a rule set containing (at least) two equal rules for the
current IP. -/
theorem c6_reconcile_not_idempotent (rules : List Rule)
    (last : Option String) (X : String) :
    2 ≤ (reconcile (reconcile rules last X) last X).count
          (new_rule (X ++ "/32")) := by
  rcases last with _ | l
  · simp [reconcile, List.count_append]
  · by_cases h1 : l = ""
    · simp [reconcile, h1, List.count_append]
    · by_cases h2 : l = X
      · simp [reconcile, h2, List.count_append]
      · rw [reconcile_some_ne rules h1 h2, reconcile_some_ne _ h1 h2,
          remove_ip_rule_append, remove_keeps_new_rule h2]
        simp [List.count_append]

/-- Counterexample to C3 as stated: with prior IP `1.2.3.4` the set
`[new_rule "1.2.3.4/32", ruleMulti]` loses `ruleMulti` as well (its
`source_ips` also contains `1.2.3.4/32`), so not every other rule is
unchanged. -/
theorem c3_counterexample :
    reconcile [new_rule "1.2.3.4/32", ruleMulti] (some "1.2.3.4") "5.6.7.8" =
        [new_rule "5.6.7.8/32"] ∧
      ruleMulti ∉ reconcile [new_rule "1.2.3.4/32", ruleMulti]
        (some "1.2.3.4") "5.6.7.8" := by decide

/-- C3 (amended): if the rule set splits as `pre ++ r :: post` where `r`
has `source_ips = [A/32]` and no rule of `pre` or `post` contains `A/32`
in its `source_ips`, then reconciling with nonempty prior IP `A` and
current IP `B ≠ A` removes exactly `r` and appends the new rule for
`B/32` at the end, keeping all other rules in their original relative
order. -/
theorem c3_swap_amended (pre post : List Rule) (r : Rule) (A B : String)
    (hA : A ≠ "") (hAB : A ≠ B) (hr : r.source_ips = some [A ++ "/32"])
    (hothers : ∀ r' ∈ pre ++ post, (A ++ "/32") ∉ r'.getSourceIps) :
    reconcile (pre ++ r :: post) (some A) B =
      pre ++ post ++ [new_rule (B ++ "/32")] := by
  rw [reconcile_some_ne _ hA hAB]
  congr 1
  have hsplit : pre ++ r :: post = pre ++ [r] ++ post := by simp
  rw [hsplit, remove_ip_rule_append, remove_ip_rule_append]
  have hpre : remove_ip_rule pre (A ++ "/32") = pre := by
    unfold remove_ip_rule
    rw [List.filter_eq_self]
    intro a ha
    simp [hothers a (List.mem_append_left post ha)]
  have hpost : remove_ip_rule post (A ++ "/32") = post := by
    unfold remove_ip_rule
    rw [List.filter_eq_self]
    intro a ha
    simp [hothers a (List.mem_append_right pre ha)]
  have hdrop : remove_ip_rule [r] (A ++ "/32") = [] := by
    simp [remove_ip_rule, Rule.getSourceIps, hr]
  rw [hpre, hpost, hdrop]
  simp

/-- Witness for C3 (amended) at a concrete input. -/
theorem c3_swap_amended_witness :
    reconcile [ruleBroad, new_rule "1.2.3.4/32"] (some "1.2.3.4") "5.6.7.8" =
      [ruleBroad, new_rule "5.6.7.8/32"] := by
  have h := c3_swap_amended [ruleBroad] [] (new_rule "1.2.3.4/32")
    "1.2.3.4" "5.6.7.8" (by decide) (by decide) (by decide) (by decide)
  simpa using h

/-- Counterexample to C1 as stated: when a tracked-shape rule for the
current IP already exists in the fetched set, the result contains two
rules matching `(in, tcp, any, [currentIP/32])`, not exactly one. -/
theorem c1_counterexample :
    (reconcile [new_rule "5.6.7.8/32"] (some "1.2.3.4") "5.6.7.8").countP
      (matchesTracked "5.6.7.8/32") = 2 := by decide

theorem matchesTracked_new_rule_ne {A B : String} (h : A ≠ B) :
    matchesTracked (A ++ "/32") (new_rule (B ++ "/32")) = false := by
  have hne := cidr_ne_of_ne (Ne.symm h)
  simp [matchesTracked, new_rule, hne]

/-- C1 (amended): for nonempty previous IP `A`, current IP `B ≠ A`, and
a fetched rule set containing no rule already matching the tracked shape
`(in, tcp, any, [B/32])`, the reconciled set contains exactly one rule
matching the tracked shape for `B/32` and zero rules matching the
tracked shape for `A/32`. -/
theorem c1_tracked_invariant_amended (rules : List Rule) (A B : String)
    (hA : A ≠ "") (hAB : A ≠ B)
    (hfresh : rules.countP (matchesTracked (B ++ "/32")) = 0) :
    (reconcile rules (some A) B).countP (matchesTracked (B ++ "/32")) = 1 ∧
      (reconcile rules (some A) B).countP (matchesTracked (A ++ "/32")) = 0 := by
  rw [reconcile_some_ne rules hA hAB]
  constructor
  · rw [List.countP_append]
    have h0 : (remove_ip_rule rules (A ++ "/32")).countP
        (matchesTracked (B ++ "/32")) = 0 := by
      rw [List.countP_eq_zero] at hfresh ⊢
      intro a ha
      exact hfresh a (mem_remove_ip_rule.mp ha).1
    rw [h0]
    simp [matchesTracked, new_rule]
  · rw [List.countP_append]
    have h0 : (remove_ip_rule rules (A ++ "/32")).countP
        (matchesTracked (A ++ "/32")) = 0 := by
      rw [List.countP_eq_zero]
      intro a ha hmatch
      rcases mem_remove_ip_rule.mp ha with ⟨-, hnotin⟩
      have hs : a.source_ips = some [A ++ "/32"] := by
        simp [matchesTracked] at hmatch
        exact hmatch.2
      exact hnotin (by simp [Rule.getSourceIps, hs])
    rw [h0]
    simp [matchesTracked_new_rule_ne hAB]

/-- Witness for C1 (amended) at a concrete input. -/
theorem c1_tracked_invariant_amended_witness :
    (reconcile [ruleBroad] (some "1.2.3.4") "5.6.7.8").countP
        (matchesTracked ("5.6.7.8" ++ "/32")) = 1 ∧
      (reconcile [ruleBroad] (some "1.2.3.4") "5.6.7.8").countP
        (matchesTracked ("1.2.3.4" ++ "/32")) = 0 :=
  c1_tracked_invariant_amended [ruleBroad] "1.2.3.4" "5.6.7.8"
    (by decide) (by decide) (by decide)

/-- C7: the state file is written only after a successful remote apply,
never before (in every trace containing a write, the write follows the
`set_rules` POST and the run succeeded), and a failure while resolving
the IP or fetching the rules aborts the run with no mutating side effect
at all. -/
theorem c7_write_only_after_successful_apply (w : World) :
    ((w.resolveResult = none ∨ w.fetchResult = none) → (runMain w).2 = []) ∧
      (∀ ip : String, Effect.writeLast ip ∈ (runMain w).2 →
        w.applyOk = true ∧ ∃ rs : List Rule,
          w.resolveResult = some ip ∧ w.fetchResult = some rs ∧
          (runMain w).2 =
            [Effect.applyRules (reconcile rs (get_last_ip w.lastFile) ip),
             Effect.writeLast ip, Effect.emailSuccess]) := by
  obtain ⟨tok, fid, res, fet, lastf, app⟩ := w
  rcases res with _ | my <;> rcases fet with _ | rs <;> rcases app <;>
    by_cases hcfg : (!truthyStr tok || !truthyStr fid) = true <;>
      simp [runMain, hcfg]

/-- Witness for C7 at a concrete input: the successful run `wOk` writes
the state file, and the theorem pins its full trace. -/
theorem c7_write_only_after_successful_apply_witness :
    wOk.applyOk = true ∧ ∃ rs : List Rule,
      wOk.resolveResult = some "5.6.7.8" ∧ wOk.fetchResult = some rs ∧
      (runMain wOk).2 =
        [Effect.applyRules (reconcile rs (get_last_ip wOk.lastFile) "5.6.7.8"),
         Effect.writeLast "5.6.7.8", Effect.emailSuccess] :=
  (c7_write_only_after_successful_apply wOk).2 "5.6.7.8" (by decide)

/-- C8: on a successful remote apply the run succeeds and its mutating
side effects are, in order, the `set_rules` POST, the state-file write of
the new IP, and the success notification — i.e. after the apply exactly
the write and then the notification. -/
theorem c8_success_persists_then_notifies (w : World) (ip : String)
    (rs : List Rule)
    (hcfg1 : truthyStr w.apiToken = true)
    (hcfg2 : truthyStr w.firewallId = true)
    (hres : w.resolveResult = some ip) (hfetch : w.fetchResult = some rs)
    (happ : w.applyOk = true) :
    (runMain w).1 = Outcome.success ∧
      (runMain w).2 =
        [Effect.applyRules (reconcile rs (get_last_ip w.lastFile) ip),
         Effect.writeLast ip, Effect.emailSuccess] := by
  simp [runMain, hcfg1, hcfg2, hres, hfetch, happ]

/-- Witness for C8 at the concrete successful world `wOk`. -/
theorem c8_success_persists_then_notifies_witness :
    (runMain wOk).1 = Outcome.success ∧
      (runMain wOk).2 =
        [Effect.applyRules (reconcile [new_rule "1.2.3.4/32"]
            (get_last_ip wOk.lastFile) "5.6.7.8"),
         Effect.writeLast "5.6.7.8", Effect.emailSuccess] :=
  c8_success_persists_then_notifies wOk "5.6.7.8" [new_rule "1.2.3.4/32"]
    (by decide) (by decide) (by decide) (by decide) (by decide)

/-- C2 (code evaluation at the failing input): when the `set_rules` POST
fails, the run's only mutating side effect is that POST itself — no
state-file write, but also no restore call and no failure notification:
the failure branch calls `restore_firewall_rules`, a name defined nowhere
in the repository, so the run crashes with `NameError`. -/
theorem c2_apply_failure_crashes (w : World) (ip : String) (rs : List Rule)
    (hcfg1 : truthyStr w.apiToken = true)
    (hcfg2 : truthyStr w.firewallId = true)
    (hres : w.resolveResult = some ip) (hfetch : w.fetchResult = some rs)
    (happ : w.applyOk = false) :
    (runMain w).1 = Outcome.crashNameError ∧
      (runMain w).2 =
        [Effect.applyRules (reconcile rs (get_last_ip w.lastFile) ip)] := by
  simp [runMain, hcfg1, hcfg2, hres, hfetch, happ]

/-- Witness for the C2 evaluation at the concrete failing world `wFail`. -/
theorem c2_apply_failure_crashes_witness :
    (runMain wFail).1 = Outcome.crashNameError ∧
      (runMain wFail).2 =
        [Effect.applyRules (reconcile [new_rule "1.2.3.4/32"]
            (get_last_ip wFail.lastFile) "5.6.7.8")] :=
  c2_apply_failure_crashes wFail "5.6.7.8" [new_rule "1.2.3.4/32"]
    (by decide) (by decide) (by decide) (by decide) (by decide)
